import Mathlib

/-!
Formal model of the Smart Email Generator (src/app.py and
src/advanced_features.py): the template registry (Python format-string
rendering), the custom template builder, provider selection, and the
generation pipelines, together with theorems about their behavior.

Python string formatting (`str.format`, used by LangChain PromptTemplate)
is modelled by parsing a template into literal and placeholder chunks and
substituting named variables; machine strings are Lean `String`s.
-/

set_option maxRecDepth 200000
set_option maxHeartbeats 4000000

/-- Piece of a parsed format template: literal text or a named `{placeholder}`. -/
inductive Chunk where
  | lit (s : String)
  | var (name : String)
deriving DecidableEq

/-- Scanner for Python format templates: splits the character stream into
literal chunks and `{name}` placeholder chunks.  `buf` is the reversed
accumulator for the current run, `inVar` says whether we are inside a
placeholder.  Returns `none` on unmatched braces, as Python `str.format`
raises there. -/
def parseAux : List Char → List Char → Bool → Option (List Chunk)
  | [], buf, inVar =>
      if inVar then none
      else if buf.isEmpty then some []
      else some [Chunk.lit (String.mk buf.reverse)]
  | c :: cs, buf, inVar =>
      if inVar then
        if c = '}' then
          (parseAux cs [] false).map (fun ks => Chunk.var (String.mk buf.reverse) :: ks)
        else if c = '{' then none
        else parseAux cs (c :: buf) true
      else
        if c = '{' then
          (parseAux cs [] true).map (fun ks =>
            if buf.isEmpty then ks else Chunk.lit (String.mk buf.reverse) :: ks)
        else if c = '}' then none
        else parseAux cs (c :: buf) false

/-- Parse a template string into chunks. -/
def parseTemplate (t : String) : Option (List Chunk) :=
  parseAux t.data [] false

/-- Lookup of a named variable in an association list of render variables
(first match wins, as for Python keyword arguments). -/
def lookupVar (v : String) : List (String × String) → Option String
  | [] => none
  | (k, val) :: rest => if k = v then some val else lookupVar v rest

/-- Substitute variables into parsed chunks; fails when a placeholder has
no matching variable, as Python `str.format` raises `KeyError`. -/
def renderChunks : List Chunk → List (String × String) → Option String
  | [], _ => some ""
  | Chunk.lit s :: ks, vars => (renderChunks ks vars).map (fun r => s ++ r)
  | Chunk.var v :: ks, vars =>
      (lookupVar v vars).bind (fun val => (renderChunks ks vars).map (fun r => val ++ r))

/-- Render a template string against named variables (parse, then substitute). -/
def renderTemplate (t : String) (vars : List (String × String)) : Option String :=
  (parseTemplate t).bind (fun ks => renderChunks ks vars)

/-- Checks that a template parses and that every placeholder it uses is
among `names` (the declared input variables). -/
def varsOk (t : String) (names : List String) : Bool :=
  match parseTemplate t with
  | some ks => ks.all (fun k => match k with
      | Chunk.var v => names.contains v
      | Chunk.lit _ => true)
  | none => false

/-- Checks that a template parses and mentions the placeholder `v`. -/
def usesVar (t v : String) : Bool :=
  match parseTemplate t with
  | some ks => ks.contains (Chunk.var v)
  | none => false

/-- Boolean test that one character list is a prefix of another. -/
def charsPrefixOf : List Char → List Char → Bool
  | [], _ => true
  | _ :: _, [] => false
  | a :: as, b :: bs => a == b && charsPrefixOf as bs

/-- Boolean test that one character list occurs inside another. -/
def charsInfixOf : List Char → List Char → Bool
  | pat, [] => pat.isEmpty
  | pat, b :: bs => charsPrefixOf pat (b :: bs) || charsInfixOf pat bs

/-- Substring test: `pat` occurs contiguously inside `big`. -/
def strContains (big pat : String) : Bool :=
  charsInfixOf pat.data big.data

/-- Test that a string has no brace characters (so no placeholder markers). -/
def noBraces (s : String) : Bool :=
  s.data.all (fun c => c != '{' && c != '}')

/-- Whitespace characters removed by Python `str.strip` (ASCII range). -/
def isPyWhitespace (c : Char) : Bool :=
  c = ' ' || c = '\t' || c = '\n' || c = '\x0b' || c = '\x0c' || c = '\r'

/-- Model of Python `str.strip()`: drop leading and trailing whitespace. -/
def pyStrip (s : String) : String :=
  String.mk (((s.data.dropWhile isPyWhitespace).reverse.dropWhile isPyWhitespace).reverse)

/-- Model of Python `str.lower()` (ASCII range, as used by the source for
tone strings such as "Professional"). -/
def pyLower (s : String) : String :=
  String.mk (s.data.map Char.toLower)

theorem str_data_append (s t : String) : (s ++ t).data = s.data ++ t.data := rfl

theorem charsPrefixOf_self_append (p b : List Char) : charsPrefixOf p (p ++ b) = true := by
  induction p with
  | nil => rfl
  | cons a as ih => simp [charsPrefixOf, ih]

theorem charsInfixOf_of_prefixOf (p l : List Char) (h : charsPrefixOf p l = true) :
    charsInfixOf p l = true := by
  cases l with
  | nil =>
      cases p with
      | nil => rfl
      | cons a as => simp [charsPrefixOf] at h
  | cons b bs => simp [charsInfixOf, h]

theorem charsInfixOf_append_left (pre p l : List Char) (h : charsInfixOf p l = true) :
    charsInfixOf p (pre ++ l) = true := by
  induction pre with
  | nil => simpa using h
  | cons a as ih =>
      simp only [List.cons_append, charsInfixOf]
      rw [Bool.or_eq_true]
      exact Or.inr ih

theorem strContains_append_right (s r pat : String) (h : strContains r pat = true) :
    strContains (s ++ r) pat = true := by
  show charsInfixOf pat.data (s ++ r).data = true
  rw [str_data_append]
  exact charsInfixOf_append_left s.data pat.data r.data h

theorem strContains_self_append (pat r : String) : strContains (pat ++ r) pat = true := by
  show charsInfixOf pat.data (pat ++ r).data = true
  rw [str_data_append]
  exact charsInfixOf_of_prefixOf _ _ (charsPrefixOf_self_append pat.data r.data)

theorem noBraces_append (s t : String) : noBraces (s ++ t) = (noBraces s && noBraces t) := by
  unfold noBraces
  rw [str_data_append, List.all_append]

theorem renderChunks_isSome (ks : List Chunk) (vars : List (String × String))
    (h : ∀ v, Chunk.var v ∈ ks → (lookupVar v vars).isSome = true) :
    ∃ out, renderChunks ks vars = some out := by
  induction ks with
  | nil => exact ⟨"", rfl⟩
  | cons k ks ih =>
      cases k with
      | lit s =>
          obtain ⟨r, hr⟩ := ih (fun v hv => h v (List.mem_cons_of_mem _ hv))
          exact ⟨s ++ r, by simp [renderChunks, hr]⟩
      | var v =>
          have hv := h v (List.mem_cons_self _ _)
          cases hl : lookupVar v vars with
          | none => rw [hl] at hv; simp at hv
          | some val =>
              obtain ⟨r, hr⟩ := ih (fun w hw => h w (List.mem_cons_of_mem _ hw))
              exact ⟨val ++ r, by simp [renderChunks, hl, hr]⟩

theorem renderChunks_contains (ks : List Chunk) (vars : List (String × String))
    (out v val : String) (h : renderChunks ks vars = some out)
    (hmem : Chunk.var v ∈ ks) (hl : lookupVar v vars = some val) :
    strContains out val = true := by
  induction ks generalizing out with
  | nil => simp at hmem
  | cons k ks ih =>
      cases k with
      | lit s =>
          rw [renderChunks] at h
          obtain ⟨r, hr, hout⟩ := Option.map_eq_some'.mp h
          have hmem' : Chunk.var v ∈ ks := by
            rcases List.mem_cons.mp hmem with heq | hmem' <;> [exact absurd heq (by simp); exact hmem']
          subst hout
          exact strContains_append_right s r val (ih r hr hmem')
      | var w =>
          rw [renderChunks] at h
          obtain ⟨valw, hlw, hmap⟩ := Option.bind_eq_some.mp h
          obtain ⟨r, hr, hout⟩ := Option.map_eq_some'.mp hmap
          subst hout
          rcases List.mem_cons.mp hmem with heq | hmem'
          · have hvw : v = w := by injection heq
            subst hvw
            rw [hl] at hlw
            injection hlw with hval
            subst hval
            exact strContains_self_append val r
          · exact strContains_append_right valw r val (ih r hr hmem')

theorem renderChunks_noBraces (ks : List Chunk) (vars : List (String × String)) (out : String)
    (h : renderChunks ks vars = some out)
    (hlit : ∀ s, Chunk.lit s ∈ ks → noBraces s = true)
    (hval : ∀ v val, lookupVar v vars = some val → noBraces val = true) :
    noBraces out = true := by
  induction ks generalizing out with
  | nil =>
      rw [renderChunks] at h
      injection h with h
      subst h
      rfl
  | cons k ks ih =>
      cases k with
      | lit s =>
          rw [renderChunks] at h
          obtain ⟨r, hr, hout⟩ := Option.map_eq_some'.mp h
          subst hout
          rw [noBraces_append, Bool.and_eq_true]
          exact ⟨hlit s (List.mem_cons_self _ _),
            ih r hr (fun t ht => hlit t (List.mem_cons_of_mem _ ht))⟩
      | var w =>
          rw [renderChunks] at h
          obtain ⟨valw, hlw, hmap⟩ := Option.bind_eq_some.mp h
          obtain ⟨r, hr, hout⟩ := Option.map_eq_some'.mp hmap
          subst hout
          rw [noBraces_append, Bool.and_eq_true]
          exact ⟨hval w valw hlw,
            ih r hr (fun t ht => hlit t (List.mem_cons_of_mem _ ht))⟩

theorem parseAux_lit_noBraces (cs : List Char) :
    ∀ (buf : List Char) (inVar : Bool) (ks : List Chunk),
      parseAux cs buf inVar = some ks →
      (∀ c ∈ buf, c ≠ '{' ∧ c ≠ '}') →
      ∀ s, Chunk.lit s ∈ ks → noBraces s = true := by
  induction cs with
  | nil =>
      intro buf inVar ks hp hbuf s hs
      cases inVar with
      | true => simp [parseAux] at hp
      | false =>
          by_cases hb : buf.isEmpty
          · simp [parseAux, hb] at hp
            subst hp
            simp at hs
          · simp [parseAux, hb] at hp
            subst hp
            simp at hs
            subst hs
            simp only [noBraces, List.all_eq_true]
            intro c hc
            have hcb := hbuf c (List.mem_reverse.mp hc)
            simp [bne_iff_ne]
            exact hcb
  | cons c cs ih =>
      intro buf inVar ks hp hbuf s hs
      cases inVar with
      | true =>
          by_cases h1 : c = '}'
          · simp only [parseAux, if_true, if_pos h1] at hp
            obtain ⟨ks', hq, hks⟩ := Option.map_eq_some'.mp hp
            subst hks
            have hs' : Chunk.lit s ∈ ks' := by
              rcases List.mem_cons.mp hs with heq | hs' <;> [exact absurd heq (by simp); exact hs']
            exact ih [] false ks' hq (by simp) s hs'
          · by_cases h2 : c = '{'
            · simp [parseAux, h1, h2] at hp
            · simp only [parseAux, if_true, if_neg h1, if_neg h2] at hp
              refine ih (c :: buf) true ks hp ?_ s hs
              intro d hd
              rcases List.mem_cons.mp hd with heq | hd'
              · subst heq; exact ⟨h2, h1⟩
              · exact hbuf d hd'
      | false =>
          by_cases h1 : c = '{'
          · simp only [parseAux, Bool.false_eq_true, if_false, if_pos h1] at hp
            obtain ⟨ks', hq, hks⟩ := Option.map_eq_some'.mp hp
            by_cases hb : buf.isEmpty
            · rw [if_pos hb] at hks
              subst hks
              exact ih [] true ks' hq (by simp) s hs
            · rw [if_neg hb] at hks
              subst hks
              rcases List.mem_cons.mp hs with heq | hs'
              · have hse : s = String.mk buf.reverse := by injection heq
                subst hse
                simp only [noBraces, List.all_eq_true]
                intro d hd
                have hdb := hbuf d (List.mem_reverse.mp hd)
                simp [bne_iff_ne]
                exact hdb
              · exact ih [] true ks' hq (by simp) s hs'
          · by_cases h2 : c = '}'
            · simp [parseAux, h1, h2] at hp
            · simp only [parseAux, Bool.false_eq_true, if_false, if_neg h1, if_neg h2] at hp
              refine ih (c :: buf) false ks hp ?_ s hs
              intro d hd
              rcases List.mem_cons.mp hd with heq | hd'
              · subst heq; exact ⟨h1, h2⟩
              · exact hbuf d hd'

theorem varsOk_elim (t : String) (names : List String) (h : varsOk t names = true) :
    ∃ ks, parseTemplate t = some ks ∧ ∀ v, Chunk.var v ∈ ks → v ∈ names := by
  unfold varsOk at h
  cases hq : parseTemplate t with
  | none => rw [hq] at h; simp at h
  | some ks =>
      rw [hq] at h
      refine ⟨ks, rfl, ?_⟩
      intro v hv
      have hall := List.all_eq_true.mp h _ hv
      simpa using hall

theorem renderTemplate_isSome (t : String) (names : List String)
    (vars : List (String × String)) (h : varsOk t names = true)
    (hvars : ∀ v ∈ names, (lookupVar v vars).isSome = true) :
    ∃ out, renderTemplate t vars = some out := by
  obtain ⟨ks, hp, hnames⟩ := varsOk_elim t names h
  obtain ⟨out, hout⟩ := renderChunks_isSome ks vars (fun v hv => hvars v (hnames v hv))
  exact ⟨out, by simp [renderTemplate, hp, hout]⟩

theorem renderTemplate_contains (t : String) (vars : List (String × String))
    (out v val : String) (hr : renderTemplate t vars = some out)
    (huse : usesVar t v = true) (hl : lookupVar v vars = some val) :
    strContains out val = true := by
  unfold renderTemplate at hr
  obtain ⟨ks, hp, hrc⟩ := Option.bind_eq_some.mp hr
  unfold usesVar at huse
  rw [hp] at huse
  have hmem : Chunk.var v ∈ ks := by simpa using huse
  exact renderChunks_contains ks vars out v val hrc hmem hl

theorem renderTemplate_noBraces (t : String) (vars : List (String × String)) (out : String)
    (hr : renderTemplate t vars = some out)
    (hval : ∀ v val, lookupVar v vars = some val → noBraces val = true) :
    noBraces out = true := by
  unfold renderTemplate at hr
  obtain ⟨ks, hp, hrc⟩ := Option.bind_eq_some.mp hr
  refine renderChunks_noBraces ks vars out hrc ?_ hval
  exact parseAux_lit_noBraces t.data [] false ks hp (by simp)

theorem lookup_noBraces_of_all (vars : List (String × String))
    (h : vars.all (fun p => noBraces p.2) = true) :
    ∀ v val, lookupVar v vars = some val → noBraces val = true := by
  induction vars with
  | nil => intro v val hl; simp [lookupVar] at hl
  | cons p rest ih =>
      intro v val hl
      rw [List.all_cons, Bool.and_eq_true] at h
      cases p with
      | mk k w =>
          rw [lookupVar] at hl
          by_cases hk : k = v
          · rw [if_pos hk] at hl
            injection hl with hval
            subst hval
            exact h.1
          · rw [if_neg hk] at hl
            exact ih h.2 v val hl

/-- The base email generation template of src/app.py (module-level
`email_template`, lines 47-80), transcribed byte for byte. -/
def email_template : String :=
  "\n" ++
  "You are an AI Email Marketing Expert with years of experience crafting engaging, professional emails. Your task is to generate a complete email based on the subject line provided.\n" ++
  "\n" ++
  "SUBJECT: {subject}\n" ++
  "\n" ++
  "Please create a comprehensive email that includes:\n" ++
  "1. An attention-grabbing subject line that builds on the provided subject\n" ++
  "2. A personalized greeting with [Name] placeholder\n" ++
  "3. A concise but compelling body (2-3 paragraphs)\n" ++
  "4. A clear call-to-action\n" ++
  "5. A professional sign-off\n" ++
  "\n" ++
  "Adjust the tone and style to match the context of the subject (formal, urgent, friendly, promotional, etc.).\n" ++
  "\n" ++
  "The email should follow this structure:\n" ++
  "---\n" ++
  "Subject: [Enhanced Subject Line]\n" ++
  "\n" ++
  "Dear [Name],\n" ++
  "\n" ++
  "[First paragraph: Introduction and hook related to the subject]\n" ++
  "\n" ++
  "[Second paragraph: Key details and value proposition]\n" ++
  "\n" ++
  "[Third paragraph (optional): Additional information or urgency element]\n" ++
  "\n" ++
  "[Clear call-to-action with specific instructions]\n" ++
  "\n" ++
  "[Professional sign-off],\n" ++
  "[Company Name]\n" ++
  "---\n" ++
  "\n" ++
  "Keep the email concise, engaging, and focused on driving action. Use persuasive language throughout.\n"

/-- Step-1 analysis template of `create_advanced_email_chain`
(src/advanced_features.py lines 41-51). -/
def analysis_template : String :=
  "\n" ++
  "    You\x27re an expert email marketing analyst. First, analyze the following email subject to determine:\n" ++
  "    1. The primary purpose (promotional, informational, invitation, etc.)\n" ++
  "    2. The appropriate tone (formal, conversational, urgent, etc.)\n" ++
  "    3. The target audience characteristics\n" ++
  "    4. Key points that should be emphasized\n" ++
  "\n" ++
  "    SUBJECT: {subject}\n" ++
  "\n" ++
  "    Provide your analysis:\n" ++
  "    "

/-- Step-2 email template of `create_advanced_email_chain`
(src/advanced_features.py lines 65-99; local name `email_template` there). -/
def advanced_email_template : String :=
  "\n" ++
  "    You are an AI Email Marketing Expert with years of experience crafting engaging, professional emails.\n" ++
  "    \n" ++
  "    SUBJECT: {subject}\n" ++
  "    \n" ++
  "    Here\x27s an analysis of the subject that you should use to guide your email creation:\n" ++
  "    {analysis}\n" ++
  "    \n" ++
  "    Based on this analysis, create a comprehensive email that includes:\n" ++
  "    1. An attention-grabbing subject line that builds on the provided subject\n" ++
  "    2. A personalized greeting with [Name] placeholder\n" ++
  "    3. A concise but compelling body (2-3 paragraphs)\n" ++
  "    4. A clear call-to-action\n" ++
  "    5. A professional sign-off\n" ++
  "    \n" ++
  "    The email should follow this structure:\n" ++
  "    ---\n" ++
  "    Subject: [Enhanced Subject Line]\n" ++
  "    \n" ++
  "    Dear [Name],\n" ++
  "    \n" ++
  "    [First paragraph: Introduction and hook related to the subject]\n" ++
  "    \n" ++
  "    [Second paragraph: Key details and value proposition]\n" ++
  "    \n" ++
  "    [Third paragraph (optional): Additional information or urgency element]\n" ++
  "    \n" ++
  "    [Clear call-to-action with specific instructions]\n" ++
  "    \n" ++
  "    [Professional sign-off],\n" ++
  "    [Company Name]\n" ++
  "    ---\n" ++
  "    \n" ++
  "    Keep the email concise, engaging, and focused on driving action. Use persuasive language throughout.\n" ++
  "    "

/-- Follow-up template of `create_email_chain_with_memory`
(src/advanced_features.py lines 131-164). -/
def follow_up_template : String :=
  "\n" ++
  "    You are an AI Email Marketing Expert with years of experience crafting engaging, professional emails.\n" ++
  "    \n" ++
  "    CURRENT SUBJECT: {subject}\n" ++
  "    \n" ++
  "    PREVIOUS EMAIL HISTORY:\n" ++
  "    {chat_history}\n" ++
  "    \n" ++
  "    Based on the current subject and the previous email history, create a follow-up email that:\n" ++
  "    1. References the previous communication\n" ++
  "    2. Maintains continuity in tone and messaging\n" ++
  "    3. Advances the conversation or objective\n" ++
  "    4. Includes all standard email components (greeting, body, CTA, sign-off)\n" ++
  "    \n" ++
  "    The email should follow this structure:\n" ++
  "    ---\n" ++
  "    Subject: [Follow-up Subject Line]\n" ++
  "    \n" ++
  "    Dear [Name],\n" ++
  "    \n" ++
  "    [First paragraph: Reference to previous communication]\n" ++
  "    \n" ++
  "    [Second paragraph: New information or next steps]\n" ++
  "    \n" ++
  "    [Third paragraph (optional): Additional details or urgency]\n" ++
  "    \n" ++
  "    [Clear call-to-action with specific instructions]\n" ++
  "    \n" ++
  "    [Professional sign-off],\n" ++
  "    [Company Name]\n" ++
  "    ---\n" ++
  "    \n" ++
  "    Keep the email concise, engaging, and focused on driving action.\n" ++
  "    "

/-- Base block of `create_custom_email_template`
(src/advanced_features.py lines 185-198). -/
def customBaseBlock : String :=
  "\n" ++
  "    You are an AI Email Marketing Expert with years of experience crafting engaging, professional emails.\n" ++
  "    \n" ++
  "    SUBJECT: {subject}\n" ++
  "    REQUESTED TONE: {tone}\n" ++
  "    EMAIL LENGTH: {length} paragraphs\n" ++
  "    \n" ++
  "    Please create a {tone} email that includes:\n" ++
  "    1. An attention-grabbing subject line that builds on the provided subject\n" ++
  "    2. A personalized greeting with [Name] placeholder\n" ++
  "    3. A body with exactly {length} paragraphs\n" ++
  "    4. A clear call-to-action\n" ++
  "    5. A professional sign-off\n" ++
  "    "

/-- PS-instruction block, appended when `include_ps` is true (lines 202-204). -/
def psInstructionBlock : String :=
  "\n" ++
  "    6. A brief PS line that adds value or creates urgency\n" ++
  "    "

/-- Fragment appended when the tone is exactly "formal" (lines 208-211). -/
def formalToneBlock : String :=
  "\n" ++
  "    Use formal language, avoid contractions, and maintain professional distance.\n" ++
  "    Address the recipient with proper titles and use industry-specific terminology where appropriate.\n" ++
  "    "

/-- Fragment appended when the tone is exactly "friendly" (lines 213-216). -/
def friendlyToneBlock : String :=
  "\n" ++
  "    Use a warm, conversational tone with a personal touch.\n" ++
  "    Include light humor where appropriate and focus on building relationship.\n" ++
  "    "

/-- Fragment appended when the tone is exactly "urgent" (lines 218-221). -/
def urgentToneBlock : String :=
  "\n" ++
  "    Create a sense of urgency throughout the email.\n" ++
  "    Use time-sensitive language and emphasize limited availability or deadlines.\n" ++
  "    "

/-- Email structure block, always appended (lines 224-237). -/
def structureBlock : String :=
  "\n" ++
  "    The email should follow this structure:\n" ++
  "    ---\n" ++
  "    Subject: [Enhanced Subject Line]\n" ++
  "    \n" ++
  "    Dear [Name],\n" ++
  "    \n" ++
  "    [Email body with exactly {length} paragraphs]\n" ++
  "    \n" ++
  "    [Clear call-to-action with specific instructions]\n" ++
  "    \n" ++
  "    [Professional sign-off],\n" ++
  "    [Company Name]\n" ++
  "    "

/-- PS structure block, appended when `include_ps` is true (lines 241-244). -/
def psStructureBlock : String :=
  "\n" ++
  "    \n" ++
  "    P.S. [Brief value-add or urgency statement]\n" ++
  "    "

/-- Closing block, always appended (lines 246-250). -/
def footerBlock : String :=
  "\n" ++
  "    ---\n" ++
  "    \n" ++
  "    Keep the email concise, engaging, and focused on driving action. Use persuasive language throughout.\n" ++
  "    "

/-- LangChain PromptTemplate as used by the source: declared input
variables plus the raw template body. -/
structure PromptTemplate where
  input_variables : List String
  template : String
deriving DecidableEq

/-- Embedding of `create_custom_email_template` (src/advanced_features.py
lines 181-255): assembles the template body by string concatenation from
the tone, a PS flag, and fixed fragments, exactly in source order.  The
`length` parameter is accepted but not used during construction (the body
keeps a `\x7blength\x7d` placeholder for render time), as in the source. -/
def create_custom_email_template (tone : String) (length : Int) ( include_ps : Bool) :
    PromptTemplate :=
  let template := customBaseBlock
  let template := if include_ps then template ++ psInstructionBlock else template
  let template :=
    if tone = "formal" then template ++ formalToneBlock
    else if tone = "friendly" then template ++ friendlyToneBlock
    else if tone = "urgent" then template ++ urgentToneBlock
    else template
  let template := template ++ structureBlock
  let template := if include_ps then template ++ psStructureBlock else template
  let template := template ++ footerBlock
  { input_variables := ["subject", "tone", "length"], template := template }

/-- Backend clients the source can construct, with the constructor
arguments used in the source (temperature as an exact rational). -/
inductive LLMClient where
  | OpenAI (temperature : Rat) (max_tokens : Nat) (model_name : String) (openai_api_key : String)
  | ChatOpenAI (temperature : Rat) (model_name : String) (openai_api_key : String)
  | ChatAnthropic (temperature : Rat) (max_tokens : Nat) (model : String) (anthropic_api_key : String)
  | ChatGroq (temperature : Rat) (max_tokens : Nat) (model_name : String) (groq_api_key : String)
deriving DecidableEq

/-- Embedding of `get_llm_by_provider` (src/advanced_features.py lines
258-291): string comparison against the recognized providers; any other
string falls through to the final else branch, which builds the same
OpenAI completion client as the "openai" branch. -/
def get_llm_by_provider (provider : String) (api_key : String) : LLMClient :=
  if provider = "openai" then
    LLMClient.OpenAI (7/10) 1024 "gpt-3.5-turbo-instruct" api_key
  else if provider = "openai-chat" then
    LLMClient.ChatOpenAI (7/10) "gpt-3.5-turbo" api_key
  else if provider = "anthropic" then
    LLMClient.ChatAnthropic (7/10) 1024 "claude-2" api_key
  else
    LLMClient.OpenAI (7/10) 1024 "gpt-3.5-turbo-instruct" api_key

/-- Embedding of `load_llm` (src/app.py lines 37-44): the Groq chat client
used by the main app. -/
def load_llm (api_key : String) : LLMClient :=
  LLMClient.ChatGroq (7/10) 1024 "llama3-8b-8192" api_key

/-- Run of the two-step SequentialChain built by `create_advanced_email_chain`
(src/advanced_features.py lines 37-120), against an abstract completion
backend `complete`: render the analysis template with the subject, call the
backend for the analysis, render the email template with subject and
analysis, call the backend for the email.  Returns the prompts in call
order together with the outputs keyed "analysis" and "email"
(`output_variables` of the SequentialChain); `none` models a template
error. -/
def run_advanced_email_chain (complete : String → String) (subject : String) :
    Option (List String × List (String × String)) :=
  (renderTemplate analysis_template [("subject", subject)]).bind (fun p1 =>
    let analysis := complete p1
    (renderTemplate advanced_email_template
        [("subject", subject), ("analysis", analysis)]).map (fun p2 =>
      let email := complete p2
      ([p1, p2], [("analysis", analysis), ("email", email)])))

/-- Modelled from the spec: the transcript rendering of LangChain's
`ConversationBufferMemory` (constructed in `create_email_chain_with_memory`
but implemented inside the LangChain library, not in this repository):
prior (subject, generated email) pairs are formatted in order as
"Human: ..." / "AI: ..." lines joined by newlines. -/
def format_chat_history (memory : List (String × String)) : String :=
  String.intercalate "\n" (memory.map (fun p => "Human: " ++ p.1 ++ "\nAI: " ++ p.2))

/-- Modelled from the spec: one generation through the chain returned by
`create_email_chain_with_memory` (src/advanced_features.py lines 123-178).
The memory contributes the `chat_history` variable; after the call the new
(subject, result) pair is appended to the memory. -/
def run_memory_chain_once (complete : String → String)
    (memory : List (String × String)) (subject : String) :
    Option (String × List (String × String)) :=
  (renderTemplate follow_up_template
      [("subject", subject), ("chat_history", format_chat_history memory)]).map
    (fun prompt =>
      let result := complete prompt
      (result, memory ++ [(subject, result)]))

/-- Sequential generations through the memory chain, threading the same
memory object; returns the final memory contents. -/
def run_memory_chain (complete : String → String) :
    List (String × String) → List String → Option (List (String × String))
  | memory, [] => some memory
  | memory, s :: rest =>
      (run_memory_chain_once complete memory s).bind
        (fun pr => run_memory_chain complete pr.2 rest)

/-- Embedding of `generate_email` (src/app.py lines 83-102) against an
abstract backend: both branches of the `model_type` test build the same
client via `load_llm`; the base template is rendered with the subject and
the backend response is returned stripped of surrounding whitespace.  A
backend exception is an `Except.error`; the unreachable `none` branch of
the render models the `KeyError` Python formatting would raise. -/
def generate_email (complete : LLMClient → String → Except String String)
    (subject api_key : String) (model_type : String) : Except String String :=
  let llm := if model_type = "openai" then load_llm api_key else load_llm api_key
  match renderTemplate email_template [("subject", subject)] with
  | none => Except.error "missing template variable"
  | some prompt => (complete llm prompt).map pyStrip

/-- Embedding of `generate_email_with_settings` (src/advanced_features.py
lines 294-317): pick the client by provider string, build the custom
template from the lowercased tone, render it with subject, lowercased tone
and the decimal rendering of `length`, call the backend, strip the result.
`none` models a template error; no validation of `length` is performed,
as in the source. -/
def generate_email_with_settings (complete : LLMClient → String → String)
    (subject api_key model_type tone : String) (length : Int) ( include_ps : Bool) :
    Option String :=
  let llm := get_llm_by_provider model_type api_key
  let prompt_template := create_custom_email_template (pyLower tone) length include_ps
  (renderTemplate prompt_template.template
      [("subject", subject), ("tone", pyLower tone), ("length", toString length)]).map
    (fun prompt => pyStrip (complete llm prompt))

/-- The two session-state fields the Generate Email button handler writes
(src/app.py lines 163-177). -/
structure SessionState where
  generated_email : Option String
  subject : Option String
deriving DecidableEq

/-- Embedding of the Generate Email button handler (src/app.py lines
163-177): an empty subject is rejected with a warning before anything else;
otherwise `generate_email` runs, a success overwrites the session state,
and an exception leaves the state untouched and reports an error message.
The second component is the warning or error message displayed, if any. -/
def generate_button_handler (complete : LLMClient → String → Except String String)
    (subject api_key model_type : String) (st : SessionState) :
    SessionState × Option String :=
  if subject ≠ "" then
    match generate_email complete subject api_key model_type with
    | Except.ok email_content =>
        ({ generated_email := some email_content, subject := some subject }, none)
    | Except.error e => (st, some ("Error generating email: " ++ e))
  else
    (st, some "Please enter a subject for your email.")

/-- Single-pass check of a template: it parses, all its placeholders are
among `names`, and every variable in `need` actually occurs in it. -/
def templateChecks (t : String) (names need : List String) : Bool :=
  match parseTemplate t with
  | some ks =>
      ks.all (fun k => match k with
        | Chunk.var v => names.contains v
        | Chunk.lit _ => true) &&
      need.all (fun v => ks.contains (Chunk.var v))
  | none => false

theorem templateChecks_varsOk (t : String) (names need : List String)
    (h : templateChecks t names need = true) : varsOk t names = true := by
  unfold templateChecks at h
  unfold varsOk
  cases hq : parseTemplate t with
  | none => rw [hq] at h; simp at h
  | some ks =>
      rw [hq] at h
      have h' : (ks.all (fun k => match k with
          | Chunk.var v => names.contains v
          | Chunk.lit _ => true) &&
          need.all (fun v => ks.contains (Chunk.var v))) = true := h
      rw [Bool.and_eq_true] at h'
      exact h'.1

theorem templateChecks_usesVar (t : String) (names need : List String)
    (h : templateChecks t names need = true) : ∀ v ∈ need, usesVar t v = true := by
  intro v hv
  unfold templateChecks at h
  unfold usesVar
  cases hq : parseTemplate t with
  | none => rw [hq] at h; simp at h
  | some ks =>
      rw [hq] at h
      have h' : (ks.all (fun k => match k with
          | Chunk.var v => names.contains v
          | Chunk.lit _ => true) &&
          need.all (fun v => ks.contains (Chunk.var v))) = true := h
      rw [Bool.and_eq_true] at h'
      exact List.all_eq_true.mp h'.2 v hv

theorem email_template_checks :
    templateChecks email_template ["subject"] ["subject"] = true := by decide

theorem analysis_template_checks :
    templateChecks analysis_template ["subject"] ["subject"] = true := by decide

theorem advanced_email_template_checks :
    templateChecks advanced_email_template ["subject", "analysis"]
      ["subject", "analysis"] = true := by decide

theorem follow_up_template_checks :
    templateChecks follow_up_template ["subject", "chat_history"]
      ["subject", "chat_history"] = true := by decide

theorem custom_template_length_irrel (tone : String) (l1 l2 : Int) (ps : Bool) :
    create_custom_email_template tone l1 ps = create_custom_email_template tone l2 ps := rfl

theorem custom_generic_eq (tone : String) (length : Int) (ps : Bool)
    (h1 : tone ≠ "formal") (h2 : tone ≠ "friendly") (h3 : tone ≠ "urgent") :
    create_custom_email_template tone length ps =
      create_custom_email_template "professional" length ps := by
  unfold create_custom_email_template
  simp [h1, h2, h3]

theorem custom_template_checks (tone : String) (length : Int) (ps : Bool) :
    templateChecks (create_custom_email_template tone length ps).template
      ["subject", "tone", "length"] ["subject", "tone", "length"] = true := by
  rw [custom_template_length_irrel tone length 0 ps]
  by_cases h1 : tone = "formal"
  · subst h1; cases ps <;> decide
  · by_cases h2 : tone = "friendly"
    · subst h2; cases ps <;> decide
    · by_cases h3 : tone = "urgent"
      · subst h3; cases ps <;> decide
      · rw [custom_generic_eq tone 0 ps h1 h2 h3]; cases ps <;> decide

/-- C1: for every provider string and api key, `get_llm_by_provider`
returns a backend client, and when the provider is none of "openai",
"openai-chat", "anthropic" it returns the configured default client (the
OpenAI completion client, identical to the "openai" branch) instead of
raising an unknown-provider error. -/
theorem unknown_provider_fallback (provider api_key : String)
    (h1 : provider ≠ "openai") (h2 : provider ≠ "openai-chat")
    (h3 : provider ≠ "anthropic") :
    get_llm_by_provider provider api_key =
      LLMClient.OpenAI (7/10) 1024 "gpt-3.5-turbo-instruct" api_key ∧
    get_llm_by_provider provider api_key = get_llm_by_provider "openai" api_key := by
  constructor <;> simp [get_llm_by_provider, h1, h2, h3]

/-- Witness for C1 at the concrete unrecognized provider "groq". -/
theorem unknown_provider_fallback_witness :
    (("groq" : String) ≠ "openai" ∧ ("groq" : String) ≠ "openai-chat" ∧
      ("groq" : String) ≠ "anthropic") ∧
    get_llm_by_provider "groq" "key" =
      LLMClient.OpenAI (7/10) 1024 "gpt-3.5-turbo-instruct" "key" ∧
    get_llm_by_provider "groq" "key" = get_llm_by_provider "openai" "key" :=
  ⟨⟨by decide, by decide, by decide⟩,
    unknown_provider_fallback "groq" "key" (by decide) (by decide) (by decide)⟩

/-- C3: template construction is deterministic — two calls of
`create_custom_email_template` with identical arguments produce identical
assembled template bodies. -/
theorem template_construction_deterministic (t1 t2 : String) (l1 l2 : Int)
    (p1 p2 : Bool) (ht : t1 = t2) (hl : l1 = l2) (hp : p1 = p2) :
    (create_custom_email_template t1 l1 p1).template =
      (create_custom_email_template t2 l2 p2).template := by
  subst ht
  subst hl
  subst hp
  rfl

/-- Witness for C3 at concrete identical arguments. -/
theorem template_construction_deterministic_witness :
    (("formal" : String) = "formal" ∧ (3 : Int) = 3 ∧ true = true) ∧
    (create_custom_email_template "formal" 3 true).template =
      (create_custom_email_template "formal" 3 true).template :=
  ⟨⟨rfl, rfl, rfl⟩,
    template_construction_deterministic "formal" "formal" 3 3 true true rfl rfl rfl⟩

/-- C9: in the main app, the `model_type` argument of `generate_email` has
no effect: both branches build the same client via `load_llm`, so for any
two values of `model_type` the results coincide for every backend. -/
theorem model_type_no_effect (complete : LLMClient → String → Except String String)
    (subject api_key mt1 mt2 : String) :
    generate_email complete subject api_key mt1 =
      generate_email complete subject api_key mt2 := by
  unfold generate_email
  rw [ite_self, ite_self]

/-- C10: for every tone outside "formal"/"friendly"/"urgent" — including
the default "professional" — the assembled body is exactly the base block,
the optional PS blocks, the structure block and the footer, with no
tone-contributed fragment. -/
theorem unrecognized_tone_no_fragment (tone : String) (length : Int) (ps : Bool)
    (h1 : tone ≠ "formal") (h2 : tone ≠ "friendly") (h3 : tone ≠ "urgent") :
    (create_custom_email_template tone length ps).template =
      if ps then
        customBaseBlock ++ psInstructionBlock ++ structureBlock ++
          psStructureBlock ++ footerBlock
      else customBaseBlock ++ structureBlock ++ footerBlock := by
  unfold create_custom_email_template
  cases ps <;> simp [h1, h2, h3]

/-- Witness for C10 at the default tone "professional". -/
theorem unrecognized_tone_no_fragment_witness :
    (("professional" : String) ≠ "formal" ∧ ("professional" : String) ≠ "friendly" ∧
      ("professional" : String) ≠ "urgent") ∧
    (create_custom_email_template "professional" 3 false).template =
      customBaseBlock ++ structureBlock ++ footerBlock := by
  have h := unrecognized_tone_no_fragment "professional" 3 false
    (by decide) (by decide) (by decide)
  exact ⟨⟨by decide, by decide, by decide⟩, by simpa using h⟩

theorem lookupVar_head (v val : String) (rest : List (String × String)) :
    lookupVar v ((v, val) :: rest) = some val := by
  rw [lookupVar, if_pos rfl]

theorem lookupVar_skip (k v val : String) (rest : List (String × String)) (h : k ≠ v) :
    lookupVar v ((k, val) :: rest) = lookupVar v rest := by
  rw [lookupVar, if_neg h]

/-- C5: every template of the program — the base email template and every
template assembled by `create_custom_email_template` — renders successfully
when all of its declared required variables are present, and (for
brace-free variable values) the rendered output contains no brace
characters, hence no unsubstituted placeholder markers. -/
theorem registered_templates_render_clean (vars : List (String × String))
    (hsub : (lookupVar "subject" vars).isSome = true)
    (htone : (lookupVar "tone" vars).isSome = true)
    (hlen : (lookupVar "length" vars).isSome = true)
    (hnb : vars.all (fun p => noBraces p.2) = true) :
    (∃ out, renderTemplate email_template vars = some out ∧ noBraces out = true) ∧
    ∀ (tone : String) (length : Int) (ps : Bool),
      ∃ out,
        renderTemplate (create_custom_email_template tone length ps).template vars =
          some out ∧
        noBraces out = true := by
  have hval := lookup_noBraces_of_all vars hnb
  constructor
  · obtain ⟨out, hout⟩ := renderTemplate_isSome email_template ["subject"] vars
      (templateChecks_varsOk _ _ _ email_template_checks)
      (by intro v hv; simp at hv; subst hv; exact hsub)
    exact ⟨out, hout, renderTemplate_noBraces _ _ _ hout hval⟩
  · intro tone length ps
    obtain ⟨out, hout⟩ := renderTemplate_isSome
      (create_custom_email_template tone length ps).template
      ["subject", "tone", "length"] vars
      (templateChecks_varsOk _ _ _ (custom_template_checks tone length ps))
      (by intro v hv
          simp at hv
          rcases hv with rfl | rfl | rfl
          · exact hsub
          · exact htone
          · exact hlen)
    exact ⟨out, hout, renderTemplate_noBraces _ _ _ hout hval⟩

/-- Witness for C5 at a concrete variable assignment. -/
theorem registered_templates_render_clean_witness :
    ((lookupVar "subject" [("subject", "Quarterly Strategy Meeting - June 15th"),
        ("tone", "professional"), ("length", "3")]).isSome = true ∧
      (lookupVar "tone" [("subject", "Quarterly Strategy Meeting - June 15th"),
        ("tone", "professional"), ("length", "3")]).isSome = true ∧
      (lookupVar "length" [("subject", "Quarterly Strategy Meeting - June 15th"),
        ("tone", "professional"), ("length", "3")]).isSome = true ∧
      [("subject", "Quarterly Strategy Meeting - June 15th"),
        ("tone", "professional"), ("length", "3")].all (fun p => noBraces p.2) = true) ∧
    ∃ out,
      renderTemplate email_template [("subject", "Quarterly Strategy Meeting - June 15th"),
        ("tone", "professional"), ("length", "3")] = some out ∧
      noBraces out = true :=
  ⟨⟨by decide, by decide, by decide, by decide⟩,
    (registered_templates_render_clean
      [("subject", "Quarterly Strategy Meeting - June 15th"),
        ("tone", "professional"), ("length", "3")]
      (by decide) (by decide) (by decide) (by decide)).1⟩

/-- C2: the two-step chain first renders the analysis template with the
subject and calls the backend for the analysis, then renders the email
template with subject and analysis — the second prompt contains the
literal analysis text — and the pipeline result carries both outputs,
keyed "analysis" and "email", with the two prompts issued in that order. -/
theorem advanced_chain_two_step (complete : String → String) (subject : String) :
    ∃ p1 p2,
      renderTemplate analysis_template [("subject", subject)] = some p1 ∧
      strContains p1 subject = true ∧
      renderTemplate advanced_email_template
        [("subject", subject), ("analysis", complete p1)] = some p2 ∧
      strContains p2 (complete p1) = true ∧
      run_advanced_email_chain complete subject =
        some ([p1, p2], [("analysis", complete p1), ("email", complete p2)]) := by
  obtain ⟨p1, hp1⟩ := renderTemplate_isSome analysis_template ["subject"]
    [("subject", subject)]
    (templateChecks_varsOk _ _ _ analysis_template_checks)
    (by intro v hv; simp at hv; subst hv; rw [lookupVar_head]; rfl)
  obtain ⟨p2, hp2⟩ := renderTemplate_isSome advanced_email_template
    ["subject", "analysis"] [("subject", subject), ("analysis", complete p1)]
    (templateChecks_varsOk _ _ _ advanced_email_template_checks)
    (by intro v hv
        simp at hv
        rcases hv with rfl | rfl
        · rw [lookupVar_head]; rfl
        · rw [lookupVar_skip _ _ _ _ (by decide), lookupVar_head]; rfl)
  refine ⟨p1, p2, hp1, ?_, hp2, ?_, ?_⟩
  · exact renderTemplate_contains _ _ _ _ _ hp1
      (templateChecks_usesVar _ _ _ analysis_template_checks "subject" (by simp))
      (lookupVar_head _ _ _)
  · exact renderTemplate_contains _ _ _ _ _ hp2
      (templateChecks_usesVar _ _ _ advanced_email_template_checks "analysis" (by simp))
      (by rw [lookupVar_skip _ _ _ _ (by decide), lookupVar_head])
  · simp only [run_advanced_email_chain, hp1, Option.some_bind, hp2, Option.map_some']

theorem run_memory_chain_once_eq (complete : String → String)
    (memory : List (String × String)) (subject : String) :
    ∃ p,
      renderTemplate follow_up_template
        [("subject", subject), ("chat_history", format_chat_history memory)] = some p ∧
      strContains p (format_chat_history memory) = true ∧
      run_memory_chain_once complete memory subject =
        some (complete p, memory ++ [(subject, complete p)]) := by
  obtain ⟨p, hp⟩ := renderTemplate_isSome follow_up_template ["subject", "chat_history"]
    [("subject", subject), ("chat_history", format_chat_history memory)]
    (templateChecks_varsOk _ _ _ follow_up_template_checks)
    (by intro v hv
        simp at hv
        rcases hv with rfl | rfl
        · rw [lookupVar_head]; rfl
        · rw [lookupVar_skip _ _ _ _ (by decide), lookupVar_head]; rfl)
  refine ⟨p, hp, ?_, ?_⟩
  · exact renderTemplate_contains _ _ _ _ _ hp
      (templateChecks_usesVar _ _ _ follow_up_template_checks "chat_history" (by simp))
      (by rw [lookupVar_skip _ _ _ _ (by decide), lookupVar_head])
  · simp only [run_memory_chain_once, hp, Option.map_some']

theorem run_memory_chain_map_fst (complete : String → String) (subjects : List String) :
    ∀ (m m' : List (String × String)), run_memory_chain complete m subjects = some m' →
      m'.map Prod.fst = m.map Prod.fst ++ subjects := by
  induction subjects with
  | nil =>
      intro m m' h
      rw [run_memory_chain] at h
      injection h with h
      subst h
      simp
  | cons s rest ih =>
      intro m m' h
      rw [run_memory_chain] at h
      obtain ⟨p, hp, hcont, honce⟩ := run_memory_chain_once_eq complete m s
      rw [honce, Option.some_bind] at h
      have hfst := ih _ _ h
      rw [hfst]
      simp

/-- C7: in memory mode, after any number of successful generations through
the chain with the same memory object, the memory lists exactly those
subjects in chronological order, and the next generation renders a prompt
that contains the full transcript of all prior (subject, result) pairs and
appends the new (subject, result) pair to the memory. -/
theorem memory_chain_history_and_append (complete : String → String)
    (subjects : List String) (memory : List (String × String))
    (hrun : run_memory_chain complete [] subjects = some memory) :
    memory.map Prod.fst = subjects ∧
    ∀ s, ∃ p,
      renderTemplate follow_up_template
        [("subject", s), ("chat_history", format_chat_history memory)] = some p ∧
      strContains p (format_chat_history memory) = true ∧
      run_memory_chain_once complete memory s =
        some (complete p, memory ++ [(s, complete p)]) := by
  constructor
  · simpa using run_memory_chain_map_fst complete subjects [] memory hrun
  · intro s
    exact run_memory_chain_once_eq complete memory s

/-- Witness for C7: two concrete generations with a stub backend. -/
theorem memory_chain_history_and_append_witness :
    run_memory_chain (fun _ => "REPLY") [] ["Launch day", "Next steps"] =
      some [("Launch day", "REPLY"), ("Next steps", "REPLY")] ∧
    ([("Launch day", "REPLY"), ("Next steps", "REPLY")].map Prod.fst =
      ["Launch day", "Next steps"]) := by
  have h : run_memory_chain (fun _ => "REPLY") [] ["Launch day", "Next steps"] =
      some [("Launch day", "REPLY"), ("Next steps", "REPLY")] := by decide
  exact ⟨h, (memory_chain_history_and_append (fun _ => "REPLY") _ _ h).1⟩

/-- C6: failed generation is atomic for the displayed state — an empty
subject is rejected with a warning before any backend call (the outcome is
the same for every backend and leaves the state unchanged), and when the
backend raises, the stored session state is left untouched and only an
error message is shown. -/
theorem failed_generation_atomic (complete : LLMClient → String → Except String String)
    (subject api_key model_type : String) (st : SessionState) (e : String)
    (hsub : subject ≠ "")
    (herr : generate_email complete subject api_key model_type = Except.error e) :
    generate_button_handler complete subject api_key model_type st =
      (st, some ("Error generating email: " ++ e)) ∧
    ∀ (c1 c2 : LLMClient → String → Except String String) (k mt : String)
      (st2 : SessionState),
      generate_button_handler c1 "" k mt st2 =
        (st2, some "Please enter a subject for your email.") ∧
      generate_button_handler c1 "" k mt st2 = generate_button_handler c2 "" k mt st2 := by
  constructor
  · unfold generate_button_handler
    rw [if_pos hsub, herr]
  · intro c1 c2 k mt st2
    constructor <;> rfl

/-- Witness for C6 with a concrete always-raising backend. -/
theorem failed_generation_atomic_witness :
    (("Launch" : String) ≠ "" ∧
      generate_email (fun _ _ => Except.error "boom") "Launch" "key" "groq" =
        Except.error "boom") ∧
    generate_button_handler (fun _ _ => Except.error "boom") "Launch" "key" "groq"
        ⟨some "old email", some "old subject"⟩ =
      (⟨some "old email", some "old subject"⟩, some ("Error generating email: " ++ "boom")) := by
  have herr : generate_email (fun _ _ => Except.error "boom") "Launch" "key" "groq" =
      Except.error "boom" := by rfl
  exact ⟨⟨by decide, herr⟩,
    (failed_generation_atomic (fun _ _ => Except.error "boom") "Launch" "key" "groq"
      ⟨some "old email", some "old subject"⟩ "boom" (by decide) herr).1⟩

/-- C8: in single-step mode, both `generate_email` and
`generate_email_with_settings` render their template so that the prompt
sent to the backend contains the literal subject text, and return the
backend response stripped of surrounding whitespace as the sole result. -/
theorem single_step_generation (complete : LLMClient → String → Except String String)
    (completeS : LLMClient → String → String)
    (subject api_key model_type tone : String) (length : Int) (ps : Bool)
    (hsub : subject ≠ "") :
    (∃ prompt,
      renderTemplate email_template [("subject", subject)] = some prompt ∧
      strContains prompt subject = true ∧
      generate_email complete subject api_key model_type =
        (complete (load_llm api_key) prompt).map pyStrip) ∧
    ∃ prompt,
      renderTemplate (create_custom_email_template (pyLower tone) length ps).template
        [("subject", subject), ("tone", pyLower tone), ("length", toString length)] =
          some prompt ∧
      strContains prompt subject = true ∧
      generate_email_with_settings completeS subject api_key model_type tone length ps =
        some (pyStrip (completeS (get_llm_by_provider model_type api_key) prompt)) := by
  constructor
  · obtain ⟨prompt, hp⟩ := renderTemplate_isSome email_template ["subject"]
      [("subject", subject)]
      (templateChecks_varsOk _ _ _ email_template_checks)
      (by intro v hv; simp at hv; subst hv; rw [lookupVar_head]; rfl)
    refine ⟨prompt, hp, ?_, ?_⟩
    · exact renderTemplate_contains _ _ _ _ _ hp
        (templateChecks_usesVar _ _ _ email_template_checks "subject" (by simp))
        (lookupVar_head _ _ _)
    · simp only [generate_email, hp]
      rw [ite_self]
  · obtain ⟨prompt, hp⟩ := renderTemplate_isSome
      (create_custom_email_template (pyLower tone) length ps).template
      ["subject", "tone", "length"]
      [("subject", subject), ("tone", pyLower tone), ("length", toString length)]
      (templateChecks_varsOk _ _ _
        (custom_template_checks (pyLower tone) length ps))
      (by intro v hv
          simp at hv
          rcases hv with rfl | rfl | rfl
          · rw [lookupVar_head]; rfl
          · rw [lookupVar_skip _ _ _ _ (by decide), lookupVar_head]; rfl
          · rw [lookupVar_skip _ _ _ _ (by decide), lookupVar_skip _ _ _ _ (by decide),
              lookupVar_head]
            rfl)
    refine ⟨prompt, hp, ?_, ?_⟩
    · exact renderTemplate_contains _ _ _ _ _ hp
        (templateChecks_usesVar _ _ _
          (custom_template_checks (pyLower tone) length ps) "subject" (by simp))
        (lookupVar_head _ _ _)
    · simp only [generate_email_with_settings, hp, Option.map_some']

/-- Witness for C8 at the spec's end-to-end example options. -/
theorem single_step_generation_witness :
    (("Quarterly Strategy Meeting - June 15th" : String) ≠ "") ∧
    ∃ prompt,
      renderTemplate email_template
        [("subject", "Quarterly Strategy Meeting - June 15th")] = some prompt ∧
      strContains prompt "Quarterly Strategy Meeting - June 15th" = true ∧
      generate_email (fun _ _ => Except.ok " X ")
          "Quarterly Strategy Meeting - June 15th" "key" "openai" =
        (Except.ok " X " : Except String String).map pyStrip :=
  ⟨by decide,
    (single_step_generation (fun _ _ => Except.ok " X ") (fun _ _ => " X ")
      "Quarterly Strategy Meeting - June 15th" "key" "openai" "Professional" 3 false
      (by decide)).1⟩

/-- C4 counterexample: a call of `generate_email_with_settings` with
`length = 0` is not rejected — it renders the template with the literal
"EMAIL LENGTH: 0 paragraphs", calls the backend, and returns the stripped
backend response. -/
theorem length_zero_not_rejected :
    generate_email_with_settings (fun _ _ => " EMAIL BODY ")
      "Launch" "key" "openai" "Professional" 0 false = some "EMAIL BODY" ∧
    (generate_email_with_settings (fun _ prompt => prompt)
        "Launch" "key" "openai" "Professional" 0 false).map
      (fun r => strContains r "EMAIL LENGTH: 0 paragraphs") = some true := by
  constructor
  · decide
  · decide

/-- C4 amended: `generate_email_with_settings` performs no validation of
`length` — for every length, including 0 and values above 5, the options
are accepted, the decimal value is interpolated into the rendered prompt,
the backend is called, and the stripped response is returned. -/
theorem settings_accept_any_length (complete : LLMClient → String → String)
    (subject api_key model_type tone : String) (length : Int) (ps : Bool) :
    ∃ prompt,
      renderTemplate (create_custom_email_template (pyLower tone) length ps).template
        [("subject", subject), ("tone", pyLower tone), ("length", toString length)] =
          some prompt ∧
      strContains prompt (toString length) = true ∧
      generate_email_with_settings complete subject api_key model_type tone length ps =
        some (pyStrip (complete (get_llm_by_provider model_type api_key) prompt)) := by
  obtain ⟨prompt, hp⟩ := renderTemplate_isSome
    (create_custom_email_template (pyLower tone) length ps).template
    ["subject", "tone", "length"]
    [("subject", subject), ("tone", pyLower tone), ("length", toString length)]
    (templateChecks_varsOk _ _ _
      (custom_template_checks (pyLower tone) length ps))
    (by intro v hv
        simp at hv
        rcases hv with rfl | rfl | rfl
        · rw [lookupVar_head]; rfl
        · rw [lookupVar_skip _ _ _ _ (by decide), lookupVar_head]; rfl
        · rw [lookupVar_skip _ _ _ _ (by decide), lookupVar_skip _ _ _ _ (by decide),
            lookupVar_head]
          rfl)
  refine ⟨prompt, hp, ?_, ?_⟩
  · exact renderTemplate_contains _ _ _ _ _ hp
      (templateChecks_usesVar _ _ _
        (custom_template_checks (pyLower tone) length ps) "length" (by simp))
      (by rw [lookupVar_skip _ _ _ _ (by decide), lookupVar_skip _ _ _ _ (by decide),
          lookupVar_head])
  · simp only [generate_email_with_settings, hp, Option.map_some']
